import Mathlib

/-!
Verification of the validated string primitives of modeled_types.rs.

Text is modelled as Lean String; iterating the characters of a Rust str
(scalar values) is modelled by String.data, a list of Char (scalar values).
Fallible construction (Rust TryFrom returning Result) is modelled by Except.
-/

namespace ModeledTypes

/-- The error enum of the error module. One constructor per snafu variant, with the
fields the source declares. The base64 DecodeError source is kept abstractly as its
display string, since the base64 crate is external to the repository. -/
inductive Error where
  | stringContainsLineTerminator : Error
  | invalidBase64 (source : String) : Error
  | invalidIdentifier (input : String) : Error
  | invalidUrl (input : String) : Error
  | bigPattern (thing : String) (input : String) : Error
  | invalidClusterName (name : String) (msg : String) : Error
deriving DecidableEq

/-- Display formatting of each error variant, from the snafu display attributes. -/
def Error.display : Error → String
  | .stringContainsLineTerminator => "Can\x27t create SingleLineString containing line terminator"
  | .invalidBase64 source => "Invalid base64 input: " ++ source
  | .invalidIdentifier input =>
      "Identifiers may only contain ASCII alphanumerics plus hyphens, received \x27" ++ input ++ "\x27"
  | .invalidUrl input => "Given invalid URL \x27" ++ input ++ "\x27"
  | .bigPattern thing input => thing ++ " given invalid input: " ++ input
  | .invalidClusterName name msg =>
      "Given invalid cluster name \x27" ++ name ++ "\x27: " ++ msg

/-- The rejected input carried in the fields of an error variant, when there is one.
Read off the field lists of the source enum. -/
def Error.carriedInput : Error → Option String
  | .stringContainsLineTerminator => none
  | .invalidBase64 _ => none
  | .invalidIdentifier input => some input
  | .invalidUrl input => some input
  | .bigPattern _ input => some input
  | .invalidClusterName name _ => some name

/-- The descriptive sub-reason carried in the fields of an error variant, when there is
one (the base64 source error, the BigPattern subject, the cluster-name message). -/
def Error.carriedSubReason : Error → Option String
  | .stringContainsLineTerminator => none
  | .invalidBase64 source => some source
  | .invalidIdentifier _ => none
  | .invalidUrl _ => none
  | .bigPattern thing _ => some thing
  | .invalidClusterName _ msg => some msg

/-- The seven line terminator characters enumerated in TryFrom for SingleLineString:
newline, carriage return, vertical tab, form feed, next line, line separator,
paragraph separator. -/
def line_terminators : List Char :=
  ['\n', '\r', '\u000B', '\u000C', '\u0085', '\u2028', '\u2029']

/-- SingleLineString: a struct holding the original text after validation. -/
structure SingleLineString where
  inner : String
deriving DecidableEq

/-- The validation condition checked by TryFrom for SingleLineString: the input must
not contain any of the seven line terminators (the negation of the char-slice
contains check of the source). -/
def SingleLineString.validate (input : String) : Bool :=
  !(input.data.any fun c => line_terminators.contains c)

/-- TryFrom for SingleLineString: ensure no line terminator occurs, then
store the input text unchanged. -/
def SingleLineString.tryFrom (input : String) : Except Error SingleLineString :=
  if input.data.any (fun c => line_terminators.contains c) then
    .error .stringContainsLineTerminator
  else
    .ok { inner := input }

/-- TryFrom for an owned String delegates to the borrowed path, as in the
string_impls_for macro. -/
def SingleLineString.tryFromString (input : String) : Except Error SingleLineString :=
  SingleLineString.tryFrom input

/-- Deserialize from the string value read out of the document: run the owned-text
construction and wrap a failure in a custom message naming the type, as in the
string_impls_for macro. -/
def SingleLineString.deserialize (original : String) : Except String SingleLineString :=
  match SingleLineString.tryFromString original with
  | .ok v => .ok v
  | .error e => .error ("Unable to deserialize into " ++ "SingleLineString" ++ ": " ++ e.display)

/-- Serialize emits the stored original string, as in the string_impls_for macro. -/
def SingleLineString.serialize (v : SingleLineString) : String :=
  v.inner

/-- Deref to the stored text, as in the string_impls_for macro. -/
def SingleLineString.deref (v : SingleLineString) : String :=
  v.inner

/-- Borrow of the stored text (both Borrow impls return the same text), as in the
string_impls_for macro. -/
def SingleLineString.borrowStr (v : SingleLineString) : String :=
  v.inner

/-- AsRef to the stored text, as in the string_impls_for macro. -/
def SingleLineString.asRef (v : SingleLineString) : String :=
  v.inner

/-- Display writes exactly the stored text, as in the string_impls_for macro. -/
def SingleLineString.display (v : SingleLineString) : String :=
  v.inner

/-- Conversion into an owned String yields the stored text, as in the
string_impls_for macro. -/
def SingleLineString.intoString (v : SingleLineString) : String :=
  v.inner

/-- The derived Hash feeds exactly the single inner field to the hasher; we model the
resulting hash value as the hash of the stored text. -/
def SingleLineString.hashOf (v : SingleLineString) : UInt64 :=
  v.inner.hash

/-- Ordering obtained through Deref to str: values are compared by comparing the
dereferenced texts. -/
def SingleLineString.le (a b : SingleLineString) : Prop :=
  a.deref ≤ b.deref

/-- The is_ascii test on a character: its code point is at most 0x7F. -/
def is_ascii (c : Char) : Bool :=
  c.toNat ≤ 0x7F

/-- The alphanumeric test of the characters library, restricted to the ASCII range.
The source combines it with is_ascii, and on code points at most 0x7F the Unicode
Alphabetic and Number properties hold exactly for the Latin letters and the decimal
digits, so the guarded conjunction below agrees with the source on every character. -/
def is_alphanumeric_ascii (c : Char) : Bool :=
  c.isAlpha || c.isDigit

/-- The per-character test of TryFrom for Identifier: ASCII alphanumeric, or hyphen. -/
def Identifier.validChar (c : Char) : Bool :=
  (is_ascii c && is_alphanumeric_ascii c) || c == '-'

/-- Identifier: a struct holding the original text after validation. -/
structure Identifier where
  inner : String
deriving DecidableEq

/-- The validation condition checked by TryFrom for Identifier: every character is an
ASCII alphanumeric or a hyphen. -/
def Identifier.validate (input : String) : Bool :=
  input.data.all Identifier.validChar

/-- TryFrom for Identifier: ensure every character passes the character class check,
then store the input text unchanged; reject with an error carrying the input. -/
def Identifier.tryFrom (input : String) : Except Error Identifier :=
  if input.data.all Identifier.validChar then
    .ok { inner := input }
  else
    .error (.invalidIdentifier input)

/-- TryFrom for an owned String delegates to the borrowed path, as in the
string_impls_for macro. -/
def Identifier.tryFromString (input : String) : Except Error Identifier :=
  Identifier.tryFrom input

/-- Deserialize for Identifier, as generated by the string_impls_for macro. -/
def Identifier.deserialize (original : String) : Except String Identifier :=
  match Identifier.tryFromString original with
  | .ok v => .ok v
  | .error e => .error ("Unable to deserialize into " ++ "Identifier" ++ ": " ++ e.display)

/-- Serialize emits the stored original string, as in the string_impls_for macro. -/
def Identifier.serialize (v : Identifier) : String :=
  v.inner

/-- Deref to the stored text, as in the string_impls_for macro. -/
def Identifier.deref (v : Identifier) : String :=
  v.inner

/-- Borrow of the stored text, as in the string_impls_for macro. -/
def Identifier.borrowStr (v : Identifier) : String :=
  v.inner

/-- AsRef to the stored text, as in the string_impls_for macro. -/
def Identifier.asRef (v : Identifier) : String :=
  v.inner

/-- Display writes exactly the stored text, as in the string_impls_for macro. -/
def Identifier.display (v : Identifier) : String :=
  v.inner

/-- Conversion into an owned String yields the stored text, as in the
string_impls_for macro. -/
def Identifier.intoString (v : Identifier) : String :=
  v.inner

/-- The derived Hash feeds exactly the single inner field to the hasher. -/
def Identifier.hashOf (v : Identifier) : UInt64 :=
  v.inner.hash

/-- Ordering obtained through Deref to str. -/
def Identifier.le (a b : Identifier) : Prop :=
  a.deref ≤ b.deref

/-- Url: a struct holding the original text after validation. -/
structure Url where
  inner : String
deriving DecidableEq

/-- The validation condition of TryFrom for Url: the input parses as a URL, or the
input with the default scheme prepended does. The parse routine of the external url
crate is out of scope for the repository (the spec treats it as an opaque capability:
attempt to parse text as a URL, succeed or fail), so it is a parameter here, an
arbitrary pure predicate on strings. -/
def Url.validate (parses : String → Bool) (input : String) : Bool :=
  parses input || parses ("http://" ++ input)

/-- TryFrom for Url: try to parse the input directly; on failure prepend the default
scheme and try again; store the original input text on either success; reject with an
error carrying the original input when both attempts fail. -/
def Url.tryFrom (parses : String → Bool) (input : String) : Except Error Url :=
  if parses input then
    .ok { inner := input }
  else if parses ("http://" ++ input) then
    .ok { inner := input }
  else
    .error (.invalidUrl input)

/-- TryFrom for an owned String delegates to the borrowed path, as in the
string_impls_for macro. -/
def Url.tryFromString (parses : String → Bool) (input : String) : Except Error Url :=
  Url.tryFrom parses input

/-- Deserialize for Url, as generated by the string_impls_for macro. -/
def Url.deserialize (parses : String → Bool) (original : String) : Except String Url :=
  match Url.tryFromString parses original with
  | .ok v => .ok v
  | .error e => .error ("Unable to deserialize into " ++ "Url" ++ ": " ++ e.display)

/-- Serialize emits the stored original string, as in the string_impls_for macro. -/
def Url.serialize (v : Url) : String :=
  v.inner

/-- Deref to the stored text, as in the string_impls_for macro. -/
def Url.deref (v : Url) : String :=
  v.inner

/-- Borrow of the stored text, as in the string_impls_for macro. -/
def Url.borrowStr (v : Url) : String :=
  v.inner

/-- AsRef to the stored text, as in the string_impls_for macro. -/
def Url.asRef (v : Url) : String :=
  v.inner

/-- Display writes exactly the stored text, as in the string_impls_for macro. -/
def Url.display (v : Url) : String :=
  v.inner

/-- Conversion into an owned String yields the stored text, as in the
string_impls_for macro. -/
def Url.intoString (v : Url) : String :=
  v.inner

/-- The derived Hash feeds exactly the single inner field to the hasher. -/
def Url.hashOf (v : Url) : UInt64 :=
  v.inner.hash

/-- Ordering obtained through Deref to str. -/
def Url.le (a b : Url) : Prop :=
  a.deref ≤ b.deref

/-- A sample parse predicate used to instantiate the opaque URL parser in concrete
evaluations: it accepts exactly the strings in the given list. -/
def parsesOnly (good : List String) : String → Bool :=
  fun s => good.contains s

instance {ε α : Type} [DecidableEq ε] [DecidableEq α] : DecidableEq (Except ε α) := fun
  | .ok a, .ok b =>
    if h : a = b then .isTrue (by rw [h]) else .isFalse (by intro he; cases he; exact h rfl)
  | .ok _, .error _ => .isFalse (by intro h; cases h)
  | .error _, .ok _ => .isFalse (by intro h; cases h)
  | .error a, .error b =>
    if h : a = b then .isTrue (by rw [h]) else .isFalse (by intro he; cases he; exact h rfl)

/-- TryFrom for SingleLineString, rewritten through the named validation condition. -/
theorem SingleLineString.sls_tryFrom_spec (x : String) :
    SingleLineString.tryFrom x =
      if SingleLineString.validate x then .ok ⟨x⟩ else .error .stringContainsLineTerminator := by
  unfold SingleLineString.tryFrom SingleLineString.validate
  cases hany : x.data.any (fun c => line_terminators.contains c) <;> simp [hany]

/-- The SingleLineString validation condition says exactly: no character of the input
is one of the seven line terminators. -/
theorem SingleLineString.sls_validate_iff (x : String) :
    SingleLineString.validate x = true ↔ ∀ c ∈ x.data, c ∉ line_terminators := by
  unfold SingleLineString.validate
  simp [List.any_eq_true, List.contains, List.elem_iff]

/-- Success inversion for SingleLineString construction. -/
theorem SingleLineString.sls_tryFrom_ok_iff {x : String} {v : SingleLineString} :
    SingleLineString.tryFrom x = .ok v ↔
      SingleLineString.validate x = true ∧ v = ⟨x⟩ := by
  rw [SingleLineString.sls_tryFrom_spec]
  cases h : SingleLineString.validate x <;> simp [h, eq_comm]

/-- Failure inversion for SingleLineString construction. -/
theorem SingleLineString.sls_tryFrom_err_iff {x : String} {e : Error} :
    SingleLineString.tryFrom x = .error e ↔
      SingleLineString.validate x = false ∧ e = .stringContainsLineTerminator := by
  rw [SingleLineString.sls_tryFrom_spec]
  cases h : SingleLineString.validate x <;> simp [h, eq_comm]

/-- TryFrom for Identifier, rewritten through the named validation condition. -/
theorem Identifier.id_tryFrom_spec (x : String) :
    Identifier.tryFrom x =
      if Identifier.validate x then .ok ⟨x⟩ else .error (.invalidIdentifier x) := by
  unfold Identifier.tryFrom Identifier.validate
  cases hall : x.data.all Identifier.validChar <;> simp [hall]

/-- The Identifier validation condition says exactly: every character is an ASCII
alphanumeric or a hyphen. -/
theorem Identifier.id_validate_iff (x : String) :
    Identifier.validate x = true ↔
      ∀ c ∈ x.data, (is_ascii c && is_alphanumeric_ascii c) = true ∨ c = '-' := by
  unfold Identifier.validate Identifier.validChar
  simp [List.all_eq_true]

/-- Success inversion for Identifier construction. -/
theorem Identifier.id_tryFrom_ok_iff {x : String} {v : Identifier} :
    Identifier.tryFrom x = .ok v ↔ Identifier.validate x = true ∧ v = ⟨x⟩ := by
  rw [Identifier.id_tryFrom_spec]
  cases h : Identifier.validate x <;> simp [h, eq_comm]

/-- Failure inversion for Identifier construction. -/
theorem Identifier.id_tryFrom_err_iff {x : String} {e : Error} :
    Identifier.tryFrom x = .error e ↔
      Identifier.validate x = false ∧ e = .invalidIdentifier x := by
  rw [Identifier.id_tryFrom_spec]
  cases h : Identifier.validate x <;> simp [h, eq_comm]

/-- TryFrom for Url, rewritten through the named validation condition. -/
theorem Url.url_tryFrom_spec (parses : String → Bool) (x : String) :
    Url.tryFrom parses x =
      if Url.validate parses x then .ok ⟨x⟩ else .error (.invalidUrl x) := by
  unfold Url.tryFrom Url.validate
  cases h1 : parses x <;> cases h2 : parses ("http://" ++ x) <;> simp [h1, h2]

/-- Success inversion for Url construction. -/
theorem Url.url_tryFrom_ok_iff {parses : String → Bool} {x : String} {v : Url} :
    Url.tryFrom parses x = .ok v ↔ Url.validate parses x = true ∧ v = ⟨x⟩ := by
  rw [Url.url_tryFrom_spec]
  cases h : Url.validate parses x <;> simp [h, eq_comm]

/-- Failure inversion for Url construction. -/
theorem Url.url_tryFrom_err_iff {parses : String → Bool} {x : String} {e : Error} :
    Url.tryFrom parses x = .error e ↔
      Url.validate parses x = false ∧ e = .invalidUrl x := by
  rw [Url.url_tryFrom_spec]
  cases h : Url.validate parses x <;> simp [h, eq_comm]

/-- Deserialization succeeds exactly when borrowed-text construction does, with the
same value. -/
theorem SingleLineString.sls_deserialize_ok_iff {s : String} {v : SingleLineString} :
    SingleLineString.deserialize s = .ok v ↔ SingleLineString.tryFrom s = .ok v := by
  unfold SingleLineString.deserialize SingleLineString.tryFromString
  cases h : SingleLineString.tryFrom s <;> simp [h]

/-- Deserialization succeeds exactly when borrowed-text construction does, with the
same value. -/
theorem Identifier.id_deserialize_ok_iff {s : String} {v : Identifier} :
    Identifier.deserialize s = .ok v ↔ Identifier.tryFrom s = .ok v := by
  unfold Identifier.deserialize Identifier.tryFromString
  cases h : Identifier.tryFrom s <;> simp [h]

/-- Deserialization succeeds exactly when borrowed-text construction does, with the
same value. -/
theorem Url.url_deserialize_ok_iff {parses : String → Bool} {s : String} {v : Url} :
    Url.deserialize parses s = .ok v ↔ Url.tryFrom parses s = .ok v := by
  unfold Url.deserialize Url.tryFromString
  cases h : Url.tryFrom parses s <;> simp [h]

/-- When construction fails, deserialization fails with the custom wrapped message. -/
theorem SingleLineString.sls_deserialize_err {s : String} {e : Error}
    (h : SingleLineString.tryFrom s = .error e) :
    SingleLineString.deserialize s =
      .error ("Unable to deserialize into " ++ "SingleLineString" ++ ": " ++ e.display) := by
  unfold SingleLineString.deserialize SingleLineString.tryFromString
  rw [h]

/-- When construction fails, deserialization fails with the custom wrapped message. -/
theorem Identifier.id_deserialize_err {s : String} {e : Error}
    (h : Identifier.tryFrom s = .error e) :
    Identifier.deserialize s =
      .error ("Unable to deserialize into " ++ "Identifier" ++ ": " ++ e.display) := by
  unfold Identifier.deserialize Identifier.tryFromString
  rw [h]

/-- When construction fails, deserialization fails with the custom wrapped message. -/
theorem Url.url_deserialize_err {parses : String → Bool} {s : String} {e : Error}
    (h : Url.tryFrom parses s = .error e) :
    Url.deserialize parses s =
      .error ("Unable to deserialize into " ++ "Url" ++ ": " ++ e.display) := by
  unfold Url.deserialize Url.tryFromString
  rw [h]

/-- A middle factor of a string concatenation occurs in it as an infix of the
character list. -/
theorem data_infix_mid (a b c : String) : b.data <:+: (a ++ b ++ c).data :=
  ⟨a.data, c.data, rfl⟩

/-- The last factor of a string concatenation is an infix of the character list. -/
theorem data_infix_last (a b : String) : b.data <:+: (a ++ b).data :=
  ⟨a.data, [], by simp⟩

/-- C2: SingleLineString construction from t succeeds and stores exactly t if and only
if t contains none of the seven enumerated line terminator code points; when at least
one of them occurs in t, construction fails with the line terminator error. -/
theorem c2_single_line_validation (t : String) :
    (SingleLineString.tryFrom t = .ok ⟨t⟩ ↔ ∀ c ∈ t.data, c ∉ line_terminators)
    ∧ ((∃ c ∈ t.data, c ∈ line_terminators) →
      SingleLineString.tryFrom t = .error .stringContainsLineTerminator) := by
  have hv := SingleLineString.sls_validate_iff t
  constructor
  · constructor
    · intro hok
      exact hv.mp (SingleLineString.sls_tryFrom_ok_iff.mp hok).1
    · intro hall
      exact SingleLineString.sls_tryFrom_ok_iff.mpr ⟨hv.mpr hall, rfl⟩
  · intro hex
    have hfalse : SingleLineString.validate t = false := by
      cases h : SingleLineString.validate t
      · rfl
      · obtain ⟨c, hc, hmem⟩ := hex
        exact absurd hmem (hv.mp h c hc)
    exact SingleLineString.sls_tryFrom_err_iff.mpr ⟨hfalse, rfl⟩

/-- C2 witness: the single-line input "hi" is accepted verbatim; the CRLF input is
rejected with the line terminator error. -/
theorem c2_witness :
    SingleLineString.tryFrom "hi" = .ok ⟨"hi"⟩
    ∧ SingleLineString.tryFrom "a\r\nb" = .error .stringContainsLineTerminator :=
  ⟨(c2_single_line_validation "hi").1.mpr (by decide),
   (c2_single_line_validation "a\r\nb").2 (by decide)⟩

/-- C3: Identifier construction from t succeeds and stores exactly t if and only if
every character of t is an ASCII alphanumeric or a hyphen; otherwise construction
fails with the invalid identifier error carrying the rejected input. -/
theorem c3_identifier_validation (t : String) :
    (Identifier.tryFrom t = .ok ⟨t⟩ ↔
      ∀ c ∈ t.data, (is_ascii c && is_alphanumeric_ascii c) = true ∨ c = '-')
    ∧ ((¬ ∀ c ∈ t.data, (is_ascii c && is_alphanumeric_ascii c) = true ∨ c = '-') →
      Identifier.tryFrom t = .error (.invalidIdentifier t)) := by
  have hv := Identifier.id_validate_iff t
  constructor
  · constructor
    · intro hok
      exact hv.mp (Identifier.id_tryFrom_ok_iff.mp hok).1
    · intro hall
      exact Identifier.id_tryFrom_ok_iff.mpr ⟨hv.mpr hall, rfl⟩
  · intro hnot
    have hfalse : Identifier.validate t = false := by
      cases h : Identifier.validate t
      · rfl
      · exact absurd (hv.mp h) hnot
    exact Identifier.id_tryFrom_err_iff.mpr ⟨hfalse, rfl⟩

/-- C3 witness: empty, all-hyphen and alphanumeric-hyphen inputs are accepted
verbatim; an underscore and a non-ASCII letter are rejected with the invalid
identifier error carrying the input. -/
theorem c3_witness :
    Identifier.tryFrom "" = .ok ⟨""⟩
    ∧ Identifier.tryFrom "--------" = .ok ⟨"--------"⟩
    ∧ Identifier.tryFrom "hello-1234" = .ok ⟨"hello-1234"⟩
    ∧ Identifier.tryFrom "hello_world" = .error (.invalidIdentifier "hello_world")
    ∧ Identifier.tryFrom "héllo" = .error (.invalidIdentifier "héllo") :=
  ⟨(c3_identifier_validation "").1.mpr (by decide),
   (c3_identifier_validation "--------").1.mpr (by decide),
   (c3_identifier_validation "hello-1234").1.mpr (by decide),
   (c3_identifier_validation "hello_world").2 (by decide),
   (c3_identifier_validation "héllo").2 (by decide)⟩

/-- C4: Url construction accepts input that parses directly and stores it verbatim;
input that only parses after prepending the default scheme is also accepted with the
original unprefixed text stored; when both attempts fail it is rejected with the
invalid URL error carrying the original input. Stated for an arbitrary parse
predicate standing for the external URL parser. -/
theorem c4_url_construction (parses : String → Bool) (t : String) :
    (parses t = true → Url.tryFrom parses t = .ok ⟨t⟩)
    ∧ (parses t = false → parses ("http://" ++ t) = true →
      Url.tryFrom parses t = .ok ⟨t⟩)
    ∧ (parses t = false → parses ("http://" ++ t) = false →
      Url.tryFrom parses t = .error (.invalidUrl t)) := by
  unfold Url.tryFrom
  exact ⟨fun h1 => by simp [h1],
         fun h1 h2 => by simp [h1, h2],
         fun h1 h2 => by simp [h1, h2]⟩

/-- C4 witness: with a parser accepting exactly two concrete strings, a directly
parsing input is stored verbatim, a scheme-less input accepted via the prefixed
retry is stored without the prefix, and an input failing both attempts is rejected
with the error carrying the original input. -/
theorem c4_witness :
    Url.tryFrom (parsesOnly ["https://example.com/path", "http://example.com"])
        "https://example.com/path" = .ok ⟨"https://example.com/path"⟩
    ∧ Url.tryFrom (parsesOnly ["https://example.com/path", "http://example.com"])
        "example.com" = .ok ⟨"example.com"⟩
    ∧ Url.tryFrom (parsesOnly ["https://example.com/path", "http://example.com"])
        "how are you" = .error (.invalidUrl "how are you") :=
  ⟨(c4_url_construction (parsesOnly ["https://example.com/path", "http://example.com"])
      "https://example.com/path").1 (by decide),
   (c4_url_construction (parsesOnly ["https://example.com/path", "http://example.com"])
      "example.com").2.1 (by decide) (by decide),
   (c4_url_construction (parsesOnly ["https://example.com/path", "http://example.com"])
      "how are you").2.2 (by decide) (by decide)⟩

/-- C6: for every kind, construction from owned text delegates to the borrowed-text
path, so on every input both paths return the same result, success or failure. -/
theorem c6_owned_construction_delegates :
    (∀ s, SingleLineString.tryFromString s = SingleLineString.tryFrom s)
    ∧ (∀ s, Identifier.tryFromString s = Identifier.tryFrom s)
    ∧ (∀ parses s, Url.tryFromString parses s = Url.tryFrom parses s) :=
  ⟨fun _ => rfl, fun _ => rfl, fun _ _ => rfl⟩

/-- C1: for every kind and every accepted input x, serializing the constructed value
emits exactly the original text x, never a reconstructed form, and deserializing that
serialized form succeeds and yields a value equal to the constructed value. -/
theorem c1_round_trip :
    (∀ x v, SingleLineString.tryFrom x = .ok v →
      SingleLineString.serialize v = x
      ∧ SingleLineString.deserialize (SingleLineString.serialize v) = .ok v)
    ∧ (∀ x v, Identifier.tryFrom x = .ok v →
      Identifier.serialize v = x
      ∧ Identifier.deserialize (Identifier.serialize v) = .ok v)
    ∧ (∀ parses x v, Url.tryFrom parses x = .ok v →
      Url.serialize v = x
      ∧ Url.deserialize parses (Url.serialize v) = .ok v) := by
  refine ⟨?_, ?_, ?_⟩
  · intro x v hok
    obtain ⟨hval, rfl⟩ := SingleLineString.sls_tryFrom_ok_iff.mp hok
    exact ⟨rfl, SingleLineString.sls_deserialize_ok_iff.mpr hok⟩
  · intro x v hok
    obtain ⟨hval, rfl⟩ := Identifier.id_tryFrom_ok_iff.mp hok
    exact ⟨rfl, Identifier.id_deserialize_ok_iff.mpr hok⟩
  · intro parses x v hok
    obtain ⟨hval, rfl⟩ := Url.url_tryFrom_ok_iff.mp hok
    exact ⟨rfl, Url.url_deserialize_ok_iff.mpr hok⟩

/-- C1 witness: the round trip evaluated on one accepted input per kind, with the
opaque URL parser instantiated by a concrete predicate accepting only the prefixed
form of the input. -/
theorem c1_witness :
    (SingleLineString.serialize ⟨"hi"⟩ = "hi"
      ∧ SingleLineString.deserialize (SingleLineString.serialize ⟨"hi"⟩) = .ok ⟨"hi"⟩)
    ∧ (Identifier.serialize ⟨"abc-1"⟩ = "abc-1"
      ∧ Identifier.deserialize (Identifier.serialize ⟨"abc-1"⟩) = .ok ⟨"abc-1"⟩)
    ∧ (Url.serialize ⟨"example.com"⟩ = "example.com"
      ∧ Url.deserialize (parsesOnly ["http://example.com"])
          (Url.serialize ⟨"example.com"⟩) = .ok ⟨"example.com"⟩) :=
  ⟨c1_round_trip.1 "hi" ⟨"hi"⟩ (by decide),
   c1_round_trip.2.1 "abc-1" ⟨"abc-1"⟩ (by decide),
   c1_round_trip.2.2 (parsesOnly ["http://example.com"]) "example.com" ⟨"example.com"⟩
     (by decide)⟩

/-- C5: for every kind, deserializing a string the validator rejects fails with the
message that names the target type and embeds the display of the underlying
validation error, both occurring in it as substrings; deserializing a string the
validator accepts succeeds with the constructed value. -/
theorem c5_deserialize_error_context :
    (∀ s e, SingleLineString.tryFrom s = .error e →
      ∃ msg, SingleLineString.deserialize s = .error msg
        ∧ msg = "Unable to deserialize into " ++ "SingleLineString" ++ ": " ++ e.display
        ∧ ("SingleLineString" : String).data <:+: msg.data
        ∧ e.display.data <:+: msg.data)
    ∧ (∀ s v, SingleLineString.tryFrom s = .ok v → SingleLineString.deserialize s = .ok v)
    ∧ (∀ s e, Identifier.tryFrom s = .error e →
      ∃ msg, Identifier.deserialize s = .error msg
        ∧ msg = "Unable to deserialize into " ++ "Identifier" ++ ": " ++ e.display
        ∧ ("Identifier" : String).data <:+: msg.data
        ∧ e.display.data <:+: msg.data)
    ∧ (∀ s v, Identifier.tryFrom s = .ok v → Identifier.deserialize s = .ok v)
    ∧ (∀ parses s e, Url.tryFrom parses s = .error e →
      ∃ msg, Url.deserialize parses s = .error msg
        ∧ msg = "Unable to deserialize into " ++ "Url" ++ ": " ++ e.display
        ∧ ("Url" : String).data <:+: msg.data
        ∧ e.display.data <:+: msg.data)
    ∧ (∀ parses s v, Url.tryFrom parses s = .ok v → Url.deserialize parses s = .ok v) := by
  refine ⟨?_, ?_, ?_, ?_, ?_, ?_⟩
  · intro s e herr
    refine ⟨_, SingleLineString.sls_deserialize_err herr, rfl, ?_, ?_⟩
    · exact data_infix_mid "Unable to deserialize into " "SingleLineString"
        (": " ++ e.display)
    · exact data_infix_last ("Unable to deserialize into " ++ "SingleLineString" ++ ": ")
        e.display
  · intro s v hok
    exact SingleLineString.sls_deserialize_ok_iff.mpr hok
  · intro s e herr
    refine ⟨_, Identifier.id_deserialize_err herr, rfl, ?_, ?_⟩
    · exact data_infix_mid "Unable to deserialize into " "Identifier" (": " ++ e.display)
    · exact data_infix_last ("Unable to deserialize into " ++ "Identifier" ++ ": ")
        e.display
  · intro s v hok
    exact Identifier.id_deserialize_ok_iff.mpr hok
  · intro parses s e herr
    refine ⟨_, Url.url_deserialize_err herr, rfl, ?_, ?_⟩
    · exact data_infix_mid "Unable to deserialize into " "Url" (": " ++ e.display)
    · exact data_infix_last ("Unable to deserialize into " ++ "Url" ++ ": ") e.display
  · intro parses s v hok
    exact Url.url_deserialize_ok_iff.mpr hok

/-- C5 witness: per kind, one rejected input whose deserialization error embeds the
type name and the validation message, and one accepted input that deserializes. -/
theorem c5_witness :
    (∃ msg, SingleLineString.deserialize "a\nb" = .error msg
      ∧ msg = "Unable to deserialize into " ++ "SingleLineString" ++ ": "
          ++ Error.stringContainsLineTerminator.display
      ∧ ("SingleLineString" : String).data <:+: msg.data
      ∧ Error.stringContainsLineTerminator.display.data <:+: msg.data)
    ∧ SingleLineString.deserialize "hi" = .ok ⟨"hi"⟩
    ∧ (∃ msg, Identifier.deserialize "a_b" = .error msg
      ∧ msg = "Unable to deserialize into " ++ "Identifier" ++ ": "
          ++ (Error.invalidIdentifier "a_b").display
      ∧ ("Identifier" : String).data <:+: msg.data
      ∧ (Error.invalidIdentifier "a_b").display.data <:+: msg.data)
    ∧ Identifier.deserialize "abc-1" = .ok ⟨"abc-1"⟩
    ∧ (∃ msg, Url.deserialize (parsesOnly ["http://example.com"]) "how are you" = .error msg
      ∧ msg = "Unable to deserialize into " ++ "Url" ++ ": "
          ++ (Error.invalidUrl "how are you").display
      ∧ ("Url" : String).data <:+: msg.data
      ∧ (Error.invalidUrl "how are you").display.data <:+: msg.data)
    ∧ Url.deserialize (parsesOnly ["http://example.com"]) "example.com" = .ok ⟨"example.com"⟩ :=
  ⟨c5_deserialize_error_context.1 "a\nb" .stringContainsLineTerminator (by decide),
   c5_deserialize_error_context.2.1 "hi" ⟨"hi"⟩ (by decide),
   c5_deserialize_error_context.2.2.1 "a_b" (.invalidIdentifier "a_b") (by decide),
   c5_deserialize_error_context.2.2.2.1 "abc-1" ⟨"abc-1"⟩ (by decide),
   c5_deserialize_error_context.2.2.2.2.1 (parsesOnly ["http://example.com"]) "how are you"
     (.invalidUrl "how are you") (by decide),
   c5_deserialize_error_context.2.2.2.2.2 (parsesOnly ["http://example.com"]) "example.com"
     ⟨"example.com"⟩ (by decide)⟩

/-- C7: every value obtained through construction or deserialization stores text that
satisfies the validation condition of its kind; these are the only ways to obtain a
value in the source, and no operation of the trait surface alters the stored text. -/
theorem c7_invariant_from_construction :
    (∀ s v, SingleLineString.tryFrom s = .ok v → SingleLineString.validate v.inner = true)
    ∧ (∀ s v, SingleLineString.deserialize s = .ok v →
      SingleLineString.validate v.inner = true)
    ∧ (∀ s v, Identifier.tryFrom s = .ok v → Identifier.validate v.inner = true)
    ∧ (∀ s v, Identifier.deserialize s = .ok v → Identifier.validate v.inner = true)
    ∧ (∀ parses s v, Url.tryFrom parses s = .ok v → Url.validate parses v.inner = true)
    ∧ (∀ parses s v, Url.deserialize parses s = .ok v →
      Url.validate parses v.inner = true) := by
  refine ⟨?_, ?_, ?_, ?_, ?_, ?_⟩
  · intro s v hok
    obtain ⟨hval, rfl⟩ := SingleLineString.sls_tryFrom_ok_iff.mp hok
    exact hval
  · intro s v hok
    obtain ⟨hval, rfl⟩ := SingleLineString.sls_tryFrom_ok_iff.mp
      (SingleLineString.sls_deserialize_ok_iff.mp hok)
    exact hval
  · intro s v hok
    obtain ⟨hval, rfl⟩ := Identifier.id_tryFrom_ok_iff.mp hok
    exact hval
  · intro s v hok
    obtain ⟨hval, rfl⟩ := Identifier.id_tryFrom_ok_iff.mp (Identifier.id_deserialize_ok_iff.mp hok)
    exact hval
  · intro parses s v hok
    obtain ⟨hval, rfl⟩ := Url.url_tryFrom_ok_iff.mp hok
    exact hval
  · intro parses s v hok
    obtain ⟨hval, rfl⟩ := Url.url_tryFrom_ok_iff.mp (Url.url_deserialize_ok_iff.mp hok)
    exact hval

/-- C7 witness: the invariant evaluated on one constructed and one deserialized value
per kind. -/
theorem c7_witness :
    SingleLineString.validate (SingleLineString.mk "hi").inner = true
    ∧ Identifier.validate (Identifier.mk "abc-1").inner = true
    ∧ Url.validate (parsesOnly ["http://example.com"]) (Url.mk "example.com").inner = true :=
  ⟨c7_invariant_from_construction.1 "hi" ⟨"hi"⟩ (by decide),
   c7_invariant_from_construction.2.2.1 "abc-1" ⟨"abc-1"⟩ (by decide),
   c7_invariant_from_construction.2.2.2.2.1 (parsesOnly ["http://example.com"])
     "example.com" ⟨"example.com"⟩ (by decide)⟩

/-- C8: every validated type has the string-like behavior set delegating to the
stored text: two accepted values are equal exactly when the accepted inputs are
equal; display, conversion to owned text, serialization, deref, borrow and as-ref
all yield exactly the accepted input; the hash is the hash of the accepted input;
and the ordering obtained through deref compares the underlying texts. -/
theorem c8_string_like_behaviors :
    ((∀ x y (vx vy : SingleLineString), SingleLineString.tryFrom x = .ok vx →
        SingleLineString.tryFrom y = .ok vy → (vx = vy ↔ x = y))
      ∧ (∀ x v, SingleLineString.tryFrom x = .ok v →
        v.display = x ∧ v.intoString = x ∧ v.serialize = x
        ∧ v.deref = x ∧ v.borrowStr = x ∧ v.asRef = x ∧ v.hashOf = x.hash)
      ∧ (∀ a b : SingleLineString, SingleLineString.le a b ↔ a.inner ≤ b.inner))
    ∧ ((∀ x y (vx vy : Identifier), Identifier.tryFrom x = .ok vx →
        Identifier.tryFrom y = .ok vy → (vx = vy ↔ x = y))
      ∧ (∀ x v, Identifier.tryFrom x = .ok v →
        v.display = x ∧ v.intoString = x ∧ v.serialize = x
        ∧ v.deref = x ∧ v.borrowStr = x ∧ v.asRef = x ∧ v.hashOf = x.hash)
      ∧ (∀ a b : Identifier, Identifier.le a b ↔ a.inner ≤ b.inner))
    ∧ ((∀ parses x y (vx vy : Url), Url.tryFrom parses x = .ok vx →
        Url.tryFrom parses y = .ok vy → (vx = vy ↔ x = y))
      ∧ (∀ parses x v, Url.tryFrom parses x = .ok v →
        v.display = x ∧ v.intoString = x ∧ v.serialize = x
        ∧ v.deref = x ∧ v.borrowStr = x ∧ v.asRef = x ∧ v.hashOf = x.hash)
      ∧ (∀ a b : Url, Url.le a b ↔ a.inner ≤ b.inner)) := by
  refine ⟨⟨?_, ?_, ?_⟩, ⟨?_, ?_, ?_⟩, ⟨?_, ?_, ?_⟩⟩
  · intro x y vx vy hx hy
    obtain ⟨-, rfl⟩ := SingleLineString.sls_tryFrom_ok_iff.mp hx
    obtain ⟨-, rfl⟩ := SingleLineString.sls_tryFrom_ok_iff.mp hy
    simp [SingleLineString.mk.injEq]
  · intro x v hok
    obtain ⟨-, rfl⟩ := SingleLineString.sls_tryFrom_ok_iff.mp hok
    exact ⟨rfl, rfl, rfl, rfl, rfl, rfl, rfl⟩
  · intro a b
    exact Iff.rfl
  · intro x y vx vy hx hy
    obtain ⟨-, rfl⟩ := Identifier.id_tryFrom_ok_iff.mp hx
    obtain ⟨-, rfl⟩ := Identifier.id_tryFrom_ok_iff.mp hy
    simp [Identifier.mk.injEq]
  · intro x v hok
    obtain ⟨-, rfl⟩ := Identifier.id_tryFrom_ok_iff.mp hok
    exact ⟨rfl, rfl, rfl, rfl, rfl, rfl, rfl⟩
  · intro a b
    exact Iff.rfl
  · intro parses x y vx vy hx hy
    obtain ⟨-, rfl⟩ := Url.url_tryFrom_ok_iff.mp hx
    obtain ⟨-, rfl⟩ := Url.url_tryFrom_ok_iff.mp hy
    simp [Url.mk.injEq]
  · intro parses x v hok
    obtain ⟨-, rfl⟩ := Url.url_tryFrom_ok_iff.mp hok
    exact ⟨rfl, rfl, rfl, rfl, rfl, rfl, rfl⟩
  · intro a b
    exact Iff.rfl

/-- C8 witness: the behavior set evaluated on concrete accepted values of each kind. -/
theorem c8_witness :
    ((SingleLineString.mk "hi" = SingleLineString.mk "ho") ↔ ("hi" : String) = "ho")
    ∧ (SingleLineString.mk "hi").display = "hi"
    ∧ ((Identifier.mk "ab" = Identifier.mk "ab") ↔ ("ab" : String) = "ab")
    ∧ (Identifier.mk "ab").intoString = "ab"
    ∧ ((Url.mk "example.com" = Url.mk "example.org") ↔
        ("example.com" : String) = "example.org")
    ∧ (Url.mk "example.com").serialize = "example.com" :=
  ⟨c8_string_like_behaviors.1.1 "hi" "ho" ⟨"hi"⟩ ⟨"ho"⟩ (by decide) (by decide),
   (c8_string_like_behaviors.1.2.1 "hi" ⟨"hi"⟩ (by decide)).1,
   c8_string_like_behaviors.2.1.1 "ab" "ab" ⟨"ab"⟩ ⟨"ab"⟩ (by decide) (by decide),
   (c8_string_like_behaviors.2.1.2.1 "ab" ⟨"ab"⟩ (by decide)).2.1,
   c8_string_like_behaviors.2.2.1 (parsesOnly ["http://example.com", "http://example.org"])
     "example.com" "example.org" ⟨"example.com"⟩ ⟨"example.org"⟩ (by decide) (by decide),
   (c8_string_like_behaviors.2.2.2.1 (parsesOnly ["http://example.com"]) "example.com"
     ⟨"example.com"⟩ (by decide)).2.2.1⟩

/-- C9 counterexample: rejecting the input consisting of one newline produces the
line terminator error, a variant that carries neither the rejected input nor a
sub-reason in its fields, so not every produced error value carries such context. -/
theorem c9_counterexample :
    SingleLineString.tryFrom "\n" = .error .stringContainsLineTerminator
    ∧ Error.carriedInput .stringContainsLineTerminator = none
    ∧ Error.carriedSubReason .stringContainsLineTerminator = none := by
  refine ⟨by decide, rfl, rfl⟩

/-- C9 amended: the identifier and URL validators reject with error values carrying
the rejected input in their fields; the line terminator validator rejects with a
fieldless error value that carries neither the input nor a sub-reason, and whose
fixed display text describes the failure. -/
theorem c9_amended_error_context :
    (∀ s e, Identifier.tryFrom s = .error e → Error.carriedInput e = some s)
    ∧ (∀ parses s e, Url.tryFrom parses s = .error e → Error.carriedInput e = some s)
    ∧ (∀ s e, SingleLineString.tryFrom s = .error e →
      Error.carriedInput e = none ∧ Error.carriedSubReason e = none
      ∧ e.display = "Can\x27t create SingleLineString containing line terminator") := by
  refine ⟨?_, ?_, ?_⟩
  · intro s e herr
    obtain ⟨-, rfl⟩ := Identifier.id_tryFrom_err_iff.mp herr
    rfl
  · intro parses s e herr
    obtain ⟨-, rfl⟩ := Url.url_tryFrom_err_iff.mp herr
    rfl
  · intro s e herr
    obtain ⟨-, rfl⟩ := SingleLineString.sls_tryFrom_err_iff.mp herr
    exact ⟨rfl, rfl, rfl⟩

/-- C9 witness: the amended statement evaluated on one rejected input per kind. -/
theorem c9_witness :
    Error.carriedInput (.invalidIdentifier "a_b") = some "a_b"
    ∧ Error.carriedInput (.invalidUrl "how are you") = some "how are you"
    ∧ (Error.carriedInput .stringContainsLineTerminator = none
      ∧ Error.carriedSubReason .stringContainsLineTerminator = none
      ∧ Error.display .stringContainsLineTerminator =
          "Can\x27t create SingleLineString containing line terminator") :=
  ⟨c9_amended_error_context.1 "a_b" (.invalidIdentifier "a_b") (by decide),
   c9_amended_error_context.2.1 (parsesOnly []) "how are you" (.invalidUrl "how are you")
     (by decide),
   c9_amended_error_context.2.2 "\n" .stringContainsLineTerminator (by decide)⟩

/-- C10: validation is idempotent on stored text: constructing again from the stored
text of an accepted value succeeds and yields an equal value, for every kind. -/
theorem c10_validation_idempotent :
    (∀ x v, SingleLineString.tryFrom x = .ok v → SingleLineString.tryFrom v.inner = .ok v)
    ∧ (∀ x v, Identifier.tryFrom x = .ok v → Identifier.tryFrom v.inner = .ok v)
    ∧ (∀ parses x v, Url.tryFrom parses x = .ok v →
      Url.tryFrom parses v.inner = .ok v) := by
  refine ⟨?_, ?_, ?_⟩
  · intro x v hok
    obtain ⟨hval, rfl⟩ := SingleLineString.sls_tryFrom_ok_iff.mp hok
    exact hok
  · intro x v hok
    obtain ⟨hval, rfl⟩ := Identifier.id_tryFrom_ok_iff.mp hok
    exact hok
  · intro parses x v hok
    obtain ⟨hval, rfl⟩ := Url.url_tryFrom_ok_iff.mp hok
    exact hok

/-- C10 witness: reconstruction from the stored text evaluated on one accepted value
per kind. -/
theorem c10_witness :
    SingleLineString.tryFrom (SingleLineString.mk "hi").inner = .ok ⟨"hi"⟩
    ∧ Identifier.tryFrom (Identifier.mk "abc-1").inner = .ok ⟨"abc-1"⟩
    ∧ Url.tryFrom (parsesOnly ["http://example.com"]) (Url.mk "example.com").inner =
        .ok ⟨"example.com"⟩ :=
  ⟨c10_validation_idempotent.1 "hi" ⟨"hi"⟩ (by decide),
   c10_validation_idempotent.2.1 "abc-1" ⟨"abc-1"⟩ (by decide),
   c10_validation_idempotent.2.2 (parsesOnly ["http://example.com"]) "example.com"
     ⟨"example.com"⟩ (by decide)⟩

end ModeledTypes

